import Mathlib

/-!
# Room client of the ion load tool (`ion/client.go`)

A shallow embedding of `RoomClient` and its operations, followed by the
properties of the session protocol that the client implements.

Modelling conventions.

* A Go pointer to a collaborator object (`*webrtc.PeerConnection`,
  `*peer.Peer`, `*client.WebSocketClient`, `*webrtc.Track`) is an `Option` of
  the object's identity; `none` is the nil pointer.
* The client only sequences calls into its collaborators.  Every operation
  therefore returns an `Outcome`: the `RoomClient` after the operation, the
  list of collaborator calls it issued (in program order), and whether it
  ended in a panic.  A call is recorded with the receiver pointer it was
  issued through.
* A method invoked through a nil collaborator pointer panics with a nil
  dereference and reaches no collaborator, so no call is recorded for it.
  `Close` and `Subscribe`, which the session properties run from arbitrary
  states, model this for `t.client`, `sub.Pc`, `t.WsPeer` and the pointer
  returned by `newConsumerPeerCon`.  `Join`, `Publish` and `UnPublish` are
  given the response to their request and so describe the runs in which that
  request was answered, which only happens with `WsPeer` set.
* Whatever a collaborator hands back (an `error`, an SDP offer, the response
  to a request, the result of `json.Unmarshal`) is an input of the operation,
  gathered in an `...Env` structure.
* `log` and `logger` output is not modelled.
* `consumers` is an unexported slice that only ever receives
  `&Consumer{...}` values, so its entries are modelled as values.
* Operations are executed one after the other; the interleaving of
  concurrently running `Subscribe` goroutines is not modelled.
-/

namespace Ion

/-- A Go `error` value, carried as its message. -/
abbrev GoError := String

namespace json

/-- Raw bytes of a JSON payload (`json.RawMessage`). -/
abbrev RawMessage := String

end json

namespace webrtc

/-- Identity of a `webrtc.PeerConnection` object. -/
abbrev PeerConnection := Nat

/-- Identity of a `webrtc.Track` object. -/
abbrev Track := Nat

/-- An SDP document (`webrtc.SessionDescription`). -/
abbrev SessionDescription := String

end webrtc

namespace peer

/-- Identity of a `peer.Peer` object. -/
abbrev Peer := Nat

/-- Error part of a response: `res.Err.Code`, `res.Err.Text`. -/
structure Error where
  Code : Int
  Text : String
  deriving DecidableEq, Repr

/-- The value received from the channel returned by `WsPeer.Request`. -/
structure Response where
  Err : Option Error
  Result : json.RawMessage
  deriving DecidableEq, Repr

end peer

namespace client

/-- Identity of a `client.WebSocketClient` object. -/
abbrev WebSocketClient := Nat

end client

namespace biz

/-- Media descriptor `biz.MediaInfo`.  The client reads only `Mid`; `Rest`
stands for the remaining attributes, which it copies but never inspects. -/
structure MediaInfo where
  Mid : String
  Rest : String
  deriving DecidableEq, Repr

/-- Room information `biz.RoomInfo`. -/
structure RoomInfo where
  Rid : String
  Uid : String
  deriving DecidableEq, Repr

/-- User information `biz.UserInfo`. -/
structure UserInfo where
  Name : String
  deriving DecidableEq, Repr

/-- SDP carrier `biz.RTCInfo`. -/
structure RTCInfo where
  Jsep : webrtc.SessionDescription
  deriving DecidableEq, Repr

/-- Value of `newPublishOptions()`, a helper that is not part of `client.go`. -/
abbrev PublishOptions := String

/-- Payload of the join request. -/
structure JoinMsg where
  RoomInfo : biz.RoomInfo
  Info : biz.UserInfo
  deriving DecidableEq, Repr

/-- Payload of the publish request. -/
structure PublishMsg where
  RoomInfo : biz.RoomInfo
  RTCInfo : biz.RTCInfo
  Options : biz.PublishOptions
  deriving DecidableEq, Repr

/-- Payload of the unpublish request. -/
structure UnpublishMsg where
  MediaInfo : biz.MediaInfo
  RoomInfo : biz.RoomInfo
  deriving DecidableEq, Repr

/-- Payload of the subscribe request. -/
structure SubscribeMsg where
  MediaInfo : biz.MediaInfo
  RoomInfo : biz.RoomInfo
  RTCInfo : biz.RTCInfo
  deriving DecidableEq, Repr

/-- Decoded publish response: `msg.MediaInfo` and `msg.Jsep`. -/
structure PublishResponseMsg where
  MediaInfo : biz.MediaInfo
  Jsep : webrtc.SessionDescription
  deriving DecidableEq, Repr

/-- Decoded subscribe response: `msg.Jsep`. -/
structure SubscribeResponseMsg where
  Jsep : webrtc.SessionDescription
  deriving DecidableEq, Repr

end biz

namespace proto

/-- Request method names used by the client (`proto.ClientJoin`, ...). -/
inductive Method where
  | ClientJoin
  | ClientPublish
  | ClientUnPublish
  | ClientSubscribe
  deriving DecidableEq, Repr

end proto

/-- Data argument of `WsPeer.Request`. -/
inductive Payload where
  | join (m : biz.JoinMsg)
  | publish (m : biz.PublishMsg)
  | unpublish (m : biz.UnpublishMsg)
  | subscribe (m : biz.SubscribeMsg)
  deriving DecidableEq, Repr

/-- A call issued by the client to one of its collaborators, with the receiver
pointer and the arguments of the call. -/
inductive Call where
  /-- Call `t.client.Close()`. -/
  | client_Close (c : Option client.WebSocketClient)
  /-- Call `pc.Close()` on a peer connection. -/
  | pc_Close (pc : Option webrtc.PeerConnection)
  /-- Call `pc.AddTrack(track)`. -/
  | AddTrack (pc : Option webrtc.PeerConnection) (track : webrtc.Track)
  /-- Call `pc.OnICEConnectionStateChange(callback)`. -/
  | OnICEConnectionStateChange (pc : Option webrtc.PeerConnection)
  /-- Call `pc.CreateOffer(nil)`. -/
  | CreateOffer (pc : Option webrtc.PeerConnection)
  /-- Call `pc.SetLocalDescription(offer)`. -/
  | SetLocalDescription (pc : Option webrtc.PeerConnection) (sd : webrtc.SessionDescription)
  /-- Call `pc.SetRemoteDescription(answer)`. -/
  | SetRemoteDescription (pc : Option webrtc.PeerConnection) (sd : webrtc.SessionDescription)
  /-- Call `t.WsPeer.Request(method, data, nil, nil)`. -/
  | Request (p : Option peer.Peer) (method : proto.Method) (data : Payload)
  /-- Call `client.NewClient(url, t.handleWebSocketOpen)`. -/
  | NewClient (url : String)
  /-- Call `newConsumerPeerCon(name, n)`. -/
  | newConsumerPeerCon (name : String) (n : Nat)
  /-- Call `peer.NewPeer(uid, transport)`. -/
  | NewPeer (uid : String) (transport : Option Nat)
  deriving DecidableEq, Repr

/-- The Go struct `Consumer`: a receiving media session and its descriptor. -/
structure Consumer where
  Pc : Option webrtc.PeerConnection
  Info : biz.MediaInfo
  deriving DecidableEq, Repr

/-- The Go struct `RoomClient`.  `ReadyChan` is the identity of the channel. -/
structure RoomClient where
  MediaInfo : biz.MediaInfo
  pubPeerCon : Option webrtc.PeerConnection
  WsPeer : Option peer.Peer
  room : biz.RoomInfo
  name : String
  AudioTrack : Option webrtc.Track
  VideoTrack : Option webrtc.Track
  paused : Bool
  ionPath : String
  ReadyChan : Option Nat
  client : Option Ion.client.WebSocketClient
  consumers : List Consumer
  deriving DecidableEq, Repr

/-- Result of running an operation of the client. -/
structure Outcome where
  /-- The `RoomClient` when the operation returned or panicked. -/
  state : RoomClient
  /-- Collaborator calls issued by the operation, in program order. -/
  calls : List Call
  /-- Whether the operation ended in `panic(err)`. -/
  panicked : Bool
  deriving DecidableEq, Repr

/-- What the collaborators hand to `NewClient`. -/
structure NewClientEnv where
  /-- Result of `webrtc.NewPeerConnection(...)` inside `newPeerCon`. -/
  NewPeerConnection : Except GoError webrtc.PeerConnection
  /-- Result of `uuid.NewRandom()`, the identifier given as `uuid.String()`. -/
  NewRandom : Except GoError String
  /-- The channel made by `make(chan bool)`. -/
  ReadyChan : Nat

/-- The function `newPeerCon`: the new peer connection, or the error with which
`log.Fatal` ends the process. -/
def newPeerCon (r : Except GoError webrtc.PeerConnection) :
    Except GoError webrtc.PeerConnection :=
  match r with
  | .error err => .error err
  | .ok pc => .ok pc

/-- The function `NewClient(name, room, path)`.  An `error` result is the
process exit of `log.Fatal` in `newPeerCon`. -/
def NewClient (name room path : String) (env : NewClientEnv) : Except GoError RoomClient :=
  match newPeerCon env.NewPeerConnection with
  | .error err => .error err
  | .ok pc =>
    let uidStr : String :=
      match env.NewRandom with
      | .error _ => name
      | .ok uuid => uuid
    .ok
      { MediaInfo := { Mid := "", Rest := "" }
        pubPeerCon := some pc
        WsPeer := none
        room := { Uid := uidStr, Rid := room }
        name := name
        AudioTrack := none
        VideoTrack := none
        paused := false
        ionPath := path
        ReadyChan := some env.ReadyChan
        client := none
        consumers := [] }

/-- The method `RoomClient.Init`; `ret` is the pointer returned by
`client.NewClient`. -/
def Init (t : RoomClient) (ret : Option client.WebSocketClient) : Outcome :=
  { state := { t with client := ret }
    calls := [Call.NewClient (t.ionPath ++ "?peer=" ++ t.room.Uid)]
    panicked := false }

/-- The method `RoomClient.handleWebSocketOpen`, the callback handed to
`client.NewClient`: it stores the peer returned by `peer.NewPeer` in `WsPeer`.
The goroutine it starts only dispatches later notifications. -/
def handleWebSocketOpen (t : RoomClient) (transport : Option Nat)
    (ret : Option peer.Peer) : Outcome :=
  { state := { t with WsPeer := ret }
    calls := [Call.NewPeer t.room.Uid transport]
    panicked := false }

/-- The method `RoomClient.Join`; `res` is the response to the join request. -/
def Join (t : RoomClient) (res : peer.Response) : Outcome :=
  let joinMsg : biz.JoinMsg := { RoomInfo := t.room, Info := { Name := t.name } }
  let calls := [Call.Request t.WsPeer proto.Method.ClientJoin (Payload.join joinMsg)]
  match res.Err with
  | some _ => { state := t, calls := calls, panicked := false }
  | none => { state := t, calls := calls, panicked := false }

/-- What the collaborators hand to `Publish`. -/
structure PublishEnv where
  /-- The `err` of `AddTrack(t.AudioTrack)`, read only when the track is set. -/
  addAudioTrack : Option GoError
  /-- The `err` of `AddTrack(t.VideoTrack)`, read only when the track is set. -/
  addVideoTrack : Option GoError
  /-- Result of `t.pubPeerCon.CreateOffer(nil)`. -/
  CreateOffer : Except GoError webrtc.SessionDescription
  /-- The `err` of `t.pubPeerCon.SetLocalDescription(offer)`. -/
  SetLocalDescription : Option GoError
  /-- Value of `newPublishOptions()`. -/
  Options : biz.PublishOptions
  /-- Response to the publish request. -/
  res : peer.Response
  /-- The function `json.Unmarshal` into a `biz.PublishResponseMsg`. -/
  Unmarshal : json.RawMessage → Except GoError biz.PublishResponseMsg
  /-- The `err` of `t.pubPeerCon.SetRemoteDescription(msg.Jsep)`. -/
  SetRemoteDescription : Option GoError

/-- The two `AddTrack` blocks at the head of `Publish`: the calls issued and
whether one of them panicked. -/
def Publish.addTracks (t : RoomClient) (env : PublishEnv) : List Call × Bool :=
  let audio : List Call × Bool :=
    match t.AudioTrack with
    | some a => ([Call.AddTrack t.pubPeerCon a], env.addAudioTrack.isSome)
    | none => ([], false)
  if audio.2 then audio
  else
    match t.VideoTrack with
    | some v => (audio.1 ++ [Call.AddTrack t.pubPeerCon v], env.addVideoTrack.isSome)
    | none => (audio.1, false)

/-- The method `RoomClient.Publish`. -/
def Publish (t : RoomClient) (env : PublishEnv) : Outcome :=
  let tracks := Publish.addTracks t env
  if tracks.2 then { state := t, calls := tracks.1, panicked := true }
  else
    let c1 := tracks.1 ++
      [Call.OnICEConnectionStateChange t.pubPeerCon, Call.CreateOffer t.pubPeerCon]
    match env.CreateOffer with
    | .error _ => { state := t, calls := c1, panicked := true }
    | .ok offer =>
      let c2 := c1 ++ [Call.SetLocalDescription t.pubPeerCon offer]
      match env.SetLocalDescription with
      | some _ => { state := t, calls := c2, panicked := true }
      | none =>
        let pubMsg : biz.PublishMsg :=
          { RoomInfo := t.room, RTCInfo := { Jsep := offer }, Options := env.Options }
        let c3 := c2 ++
          [Call.Request t.WsPeer proto.Method.ClientPublish (Payload.publish pubMsg)]
        match env.res.Err with
        | some _ => { state := t, calls := c3, panicked := false }
        | none =>
          match env.Unmarshal env.res.Result with
          | .error _ => { state := t, calls := c3, panicked := false }
          | .ok msg =>
            let t1 : RoomClient := { t with MediaInfo := msg.MediaInfo }
            let c4 := c3 ++ [Call.SetRemoteDescription t1.pubPeerCon msg.Jsep]
            match env.SetRemoteDescription with
            | some _ => { state := t1, calls := c4, panicked := true }
            | none => { state := t1, calls := c4, panicked := false }

/-- What the collaborators hand to `Subscribe`. -/
structure SubscribeEnv where
  /-- The pointer returned by `newConsumerPeerCon(t.name, len(t.consumers))`, a
  helper that is not part of `client.go`. -/
  pc : Option webrtc.PeerConnection
  /-- Result of `pc.CreateOffer(nil)`. -/
  CreateOffer : Except GoError webrtc.SessionDescription
  /-- The `err` of `pc.SetLocalDescription(offer)`. -/
  SetLocalDescription : Option GoError
  /-- Response to the subscribe request. -/
  res : peer.Response
  /-- The function `json.Unmarshal` into a `biz.SubscribeResponseMsg`. -/
  Unmarshal : json.RawMessage → Except GoError biz.SubscribeResponseMsg
  /-- The `err` of `pc.SetRemoteDescription(msg.Jsep)`. -/
  SetRemoteDescription : Option GoError

/-- The method `RoomClient.Subscribe`.  A nil pointer from
`newConsumerPeerCon` panics at `pc.CreateOffer`, a nil `t.WsPeer` panics at
`t.WsPeer.Request`. -/
def Subscribe (t : RoomClient) (info : biz.MediaInfo) (env : SubscribeEnv) : Outcome :=
  let c0 := [Call.newConsumerPeerCon t.name t.consumers.length]
  match env.pc with
  | none => { state := t, calls := c0, panicked := true }
  | some pcv =>
    let pc : Option webrtc.PeerConnection := some pcv
    let c1 := c0 ++ [Call.CreateOffer pc]
    match env.CreateOffer with
    | .error _ => { state := t, calls := c1, panicked := true }
    | .ok offer =>
      let c2 := c1 ++ [Call.SetLocalDescription pc offer]
      match env.SetLocalDescription with
      | some _ => { state := t, calls := c2, panicked := true }
      | none =>
        let req : biz.SubscribeMsg :=
          { MediaInfo := info, RoomInfo := t.room, RTCInfo := { Jsep := offer } }
        match t.WsPeer with
        | none => { state := t, calls := c2, panicked := true }
        | some p =>
          let c3 := c2 ++
            [Call.Request (some p) proto.Method.ClientSubscribe (Payload.subscribe req)]
          match env.res.Err with
          | some _ => { state := t, calls := c3, panicked := false }
          | none =>
            match env.Unmarshal env.res.Result with
            | .error _ => { state := t, calls := c3, panicked := false }
            | .ok msg =>
              let c4 := c3 ++ [Call.SetRemoteDescription pc msg.Jsep]
              match env.SetRemoteDescription with
              | some _ => { state := t, calls := c4, panicked := true }
              | none =>
                let consumer : Consumer := { Pc := pc, Info := info }
                { state := { t with consumers := t.consumers ++ [consumer] }
                  calls := c4
                  panicked := false }

/-- The search loop of `UnSubscribe`: `sub` after the `for ... range` with its
`break`, `none` being the nil `*Consumer`. -/
def UnSubscribe.find (info : biz.MediaInfo) : List Consumer → Option Consumer
  | [] => none
  | a :: rest => if a.Info.Mid = info.Mid then some a else UnSubscribe.find info rest

/-- The method `RoomClient.UnSubscribe`. -/
def UnSubscribe (t : RoomClient) (info : biz.MediaInfo) : Outcome :=
  match UnSubscribe.find info t.consumers with
  | none => { state := t, calls := [], panicked := false }
  | some sub =>
    match sub.Pc with
    | none => { state := t, calls := [], panicked := false }
    | some pc => { state := t, calls := [Call.pc_Close (some pc)], panicked := false }

/-- The method `RoomClient.Leave`, an empty body. -/
def Leave (t : RoomClient) : Outcome :=
  { state := t, calls := [], panicked := false }

/-- The `range` loop of `Close` over the consumers still to visit: the calls
issued so far and whether the loop panicked.  `sub.Pc.Close()` through a nil
`sub.Pc` panics and ends the loop. -/
def Close.loop : List Consumer → List Call → List Call × Bool
  | [], calls => (calls, false)
  | sub :: rest, calls =>
    match sub.Pc with
    | none => (calls, true)
    | some pc => Close.loop rest (calls ++ [Call.pc_Close (some pc)])

/-- The method `RoomClient.Close`: `t.client.Close()`, which panics through a
nil `t.client`, then the `range` loop over `t.consumers`. -/
def Close (t : RoomClient) : Outcome :=
  match t.client with
  | none => { state := t, calls := [], panicked := true }
  | some c =>
    let r := Close.loop t.consumers [Call.client_Close (some c)]
    { state := t, calls := r.1, panicked := r.2 }

/-- One operation of a session, with what the collaborators hand to it. -/
inductive Op where
  | Subscribe (info : biz.MediaInfo) (env : SubscribeEnv)
  | UnSubscribe (info : biz.MediaInfo)
  | Close

/-- Run one operation. -/
def Op.run (t : RoomClient) : Op → Outcome
  | .Subscribe info env => Ion.Subscribe t info env
  | .UnSubscribe info => Ion.UnSubscribe t info
  | .Close => Ion.Close t

/-- Run operations one after the other.  A panic ends the process, so the
operations after it are not run. -/
def runOps (t : RoomClient) : List Op → Outcome
  | [] => { state := t, calls := [], panicked := false }
  | op :: ops =>
    let o := op.run t
    if o.panicked then o
    else
      let r := runOps o.state ops
      { state := r.state, calls := o.calls ++ r.calls, panicked := r.panicked }

/-- The collaborator results with which every step of a `Subscribe` succeeds:
media session created, offer created and applied, success response, payload
decoded, answer applied. -/
def SubscribeEnv.succeeds (env : SubscribeEnv) : Bool :=
  match env.pc, env.CreateOffer, env.SetLocalDescription, env.res.Err,
    env.Unmarshal env.res.Result, env.SetRemoteDescription with
  | some _, .ok _, none, none, .ok _, none => true
  | _, _, _, _, _, _ => false

/-- Descriptors of the `Subscribe` operations in `ops` that succeed, in order. -/
def subscribed : List Op → List biz.MediaInfo
  | [] => []
  | .Subscribe info env :: ops =>
    if env.succeeds then info :: subscribed ops else subscribed ops
  | _ :: ops => subscribed ops

/-- Is this a `Close` call on a peer connection? -/
def Call.isPcClose : Call → Bool
  | .pc_Close _ => true
  | _ => false

/-- Is this a `Close` call on the signaling client? -/
def Call.isClientClose : Call → Bool
  | .client_Close _ => true
  | _ => false

/-- Is this an `AddTrack` call? -/
def Call.isAddTrack : Call → Bool
  | .AddTrack _ _ => true
  | _ => false

/-! ## Sample inputs -/

/-- Collaborator results for a sample `NewClient` call: peer connection 100 and
a generated identifier. -/
def sampleNewClientEnv : NewClientEnv :=
  { NewPeerConnection := .ok 100
    NewRandom := .ok "3b241101-e2bb-4255-8caf-4136c566a962"
    ReadyChan := 7 }

/-- The client built by `NewClient "alice" "r1" "wss://sfu/ws"` under
`sampleNewClientEnv`. -/
def aliceClient : RoomClient :=
  { MediaInfo := { Mid := "", Rest := "" }
    pubPeerCon := some 100
    WsPeer := none
    room := { Uid := "3b241101-e2bb-4255-8caf-4136c566a962", Rid := "r1" }
    name := "alice"
    AudioTrack := none
    VideoTrack := none
    paused := false
    ionPath := "wss://sfu/ws"
    ReadyChan := some 7
    client := none
    consumers := [] }

/-- The client `aliceClient` after `Init` returned client 9 and
`handleWebSocketOpen` stored peer 5. -/
def connectedClient : RoomClient :=
  { aliceClient with WsPeer := some 5, client := some 9 }

/-- Sample descriptor with `Mid` m1. -/
def mediaM1 : biz.MediaInfo := { Mid := "m1", Rest := "audio of bob" }

/-- Sample descriptor with `Mid` m2. -/
def mediaM2 : biz.MediaInfo := { Mid := "m2", Rest := "video of bob" }

/-- Another sample descriptor with `Mid` m2. -/
def mediaM2b : biz.MediaInfo := { Mid := "m2", Rest := "video of carol" }

/-- A connected client with three consumers, the last two sharing `Mid` m2. -/
def busyClient : RoomClient :=
  { aliceClient with
    WsPeer := some 5
    client := some 9
    AudioTrack := some 31
    MediaInfo := { Mid := "m0", Rest := "audio of alice" }
    consumers :=
      [{ Pc := some 11, Info := mediaM1 }, { Pc := some 12, Info := mediaM2 },
       { Pc := some 13, Info := mediaM2b }] }

/-- A connected client whose second consumer holds a nil media session. -/
def gapClient : RoomClient :=
  { connectedClient with
    consumers :=
      [{ Pc := some 11, Info := mediaM1 }, { Pc := none, Info := mediaM2 },
       { Pc := some 13, Info := mediaM2b }] }

/-- Collaborator results of a `Subscribe` whose every step succeeds, on the
new peer connection `pc`. -/
def okSubscribe (pc : webrtc.PeerConnection) : SubscribeEnv :=
  { pc := some pc
    CreateOffer := .ok "offer"
    SetLocalDescription := none
    res := { Err := none, Result := "answer payload" }
    Unmarshal := fun _ => .ok { Jsep := "answer" }
    SetRemoteDescription := none }

/-- Collaborator results of a `Subscribe` whose request is rejected. -/
def rejectedSubscribe : SubscribeEnv :=
  { okSubscribe 14 with res := { Err := some { Code := 403, Text := "denied" }, Result := "" } }

/-- Collaborator results of a `Publish` whose every step succeeds and whose
response carries the descriptor with `Mid` m1. -/
def okPublish : PublishEnv :=
  { addAudioTrack := none
    addVideoTrack := none
    CreateOffer := .ok "offer"
    SetLocalDescription := none
    Options := "codec vp8"
    res := { Err := none, Result := "publish payload" }
    Unmarshal := fun _ => .ok { MediaInfo := mediaM1, Jsep := "answer" }
    SetRemoteDescription := none }

/-- A response carrying an error. -/
def rejection : peer.Response :=
  { Err := some { Code := 403, Text := "denied" }, Result := "" }

/-! ## Auxiliary facts -/

theorem Close_loop_of_sessions (cs : List Consumer) (acc : List Call)
    (h : ∀ sub ∈ cs, sub.Pc ≠ none) :
    Close.loop cs acc = (acc ++ cs.map (fun sub => Call.pc_Close sub.Pc), false) := by
  induction cs generalizing acc with
  | nil => simp [Close.loop]
  | cons c cs ih =>
    have hc : c.Pc ≠ none := h c (List.mem_cons_self c cs)
    have hrest : ∀ sub ∈ cs, sub.Pc ≠ none :=
      fun sub hsub => h sub (List.mem_cons_of_mem c hsub)
    obtain ⟨pc, hpc⟩ := Option.ne_none_iff_exists'.mp hc
    simp [Close.loop, hpc, ih _ hrest]

theorem Close_of_client_and_sessions (t : RoomClient) (hclient : t.client ≠ none)
    (hpcs : ∀ sub ∈ t.consumers, sub.Pc ≠ none) :
    (Close t).calls
        = Call.client_Close t.client :: t.consumers.map (fun sub => Call.pc_Close sub.Pc)
      ∧ (Close t).panicked = false := by
  obtain ⟨c, hc⟩ := Option.ne_none_iff_exists'.mp hclient
  unfold Close
  simp [hc, Close_loop_of_sessions _ _ hpcs]

theorem Close_state_eq (t : RoomClient) : (Close t).state = t := by
  unfold Close
  cases t.client <;> rfl

theorem countP_isPcClose_map (cs : List Consumer) :
    (cs.map (fun sub => Call.pc_Close sub.Pc)).countP Call.isPcClose = cs.length := by
  induction cs with
  | nil => rfl
  | cons c cs ih => simp [List.countP_cons, Call.isPcClose, ih]

theorem countP_isClientClose_map (cs : List Consumer) :
    (cs.map (fun sub => Call.pc_Close sub.Pc)).countP Call.isClientClose = 0 := by
  induction cs with
  | nil => rfl
  | cons c cs ih => simp [List.countP_cons, Call.isClientClose, ih]

theorem count_pc_Close_map (cs : List Consumer) (p : Option webrtc.PeerConnection) :
    (cs.map (fun sub => Call.pc_Close sub.Pc)).count (Call.pc_Close p)
      = cs.countP (fun sub => decide (sub.Pc = p)) := by
  induction cs with
  | nil => rfl
  | cons c cs ih =>
    by_cases h : c.Pc = p
    · simp [List.count_cons, List.countP_cons, ih, h]
    · simp [List.count_cons, List.countP_cons, ih, h]

theorem find_append_of_first (info : biz.MediaInfo) (pre post : List Consumer) (a : Consumer)
    (hpre : ∀ x ∈ pre, x.Info.Mid ≠ info.Mid) (ha : a.Info.Mid = info.Mid) :
    UnSubscribe.find info (pre ++ a :: post) = some a := by
  induction pre with
  | nil => simp [UnSubscribe.find, ha]
  | cons x pre ih =>
    have hx : x.Info.Mid ≠ info.Mid := hpre x (List.mem_cons_self x pre)
    have hrest : ∀ y ∈ pre, y.Info.Mid ≠ info.Mid :=
      fun y hy => hpre y (List.mem_cons_of_mem x hy)
    simp [UnSubscribe.find, hx, ih hrest]

theorem find_none_of_no_match (info : biz.MediaInfo) (cs : List Consumer)
    (h : ∀ x ∈ cs, x.Info.Mid ≠ info.Mid) : UnSubscribe.find info cs = none := by
  induction cs with
  | nil => rfl
  | cons x cs ih =>
    have hx : x.Info.Mid ≠ info.Mid := h x (List.mem_cons_self x cs)
    have hrest : ∀ y ∈ cs, y.Info.Mid ≠ info.Mid :=
      fun y hy => h y (List.mem_cons_of_mem x hy)
    simp [UnSubscribe.find, hx, ih hrest]

/-! ## Close -/

/-- C1, refuted as stated.  On the client that `NewClient` returns, and on a
client whose `Init` got a nil pointer back, `t.client` is nil and `Close`
panics at `t.client.Close()` without closing anything.  On a connected client
whose second of three consumers holds a nil media session, `Close` closes the
channel and the first session, panics at the second and never closes the
third. -/
theorem Close_panics_on_nil_client_or_session :
    NewClient "alice" "r1" "wss://sfu/ws" sampleNewClientEnv = .ok aliceClient
      ∧ (Close aliceClient).panicked = true
      ∧ (Close aliceClient).calls = []
      ∧ (Close aliceClient).calls.countP Call.isClientClose = 0
      ∧ (Close (Init aliceClient none).state).panicked = true
      ∧ (Close (Init aliceClient none).state).calls = []
      ∧ gapClient.consumers.length = 3
      ∧ (Close gapClient).panicked = true
      ∧ (Close gapClient).calls = [Call.client_Close (some 9), Call.pc_Close (some 11)]
      ∧ (Close gapClient).calls.countP Call.isPcClose = 1
      ∧ (Close gapClient).calls.count (Call.pc_Close (some 13)) = 0 := by
  refine ⟨rfl, rfl, rfl, rfl, rfl, rfl, rfl, rfl, rfl, ?_, ?_⟩ <;> decide

/-- C1, amended: for every client whose signaling client is set (`t.client`
non-nil) and whose consumers all hold a non-nil media session, with a consumer
list of any length `N`, one call of `Close` issues exactly one `Close` call to
the signaling client and then one `Close` call per entry of the consumer list,
in list order, on that entry's media session: `N` such calls, every session
handle receiving as many calls as there are entries holding it; `Close` returns
without panicking and leaves the client as it was. -/
theorem Close_closes_channel_and_each_consumer_once (t : RoomClient)
    (hclient : t.client ≠ none)
    (hpcs : ∀ sub ∈ t.consumers, sub.Pc ≠ none) :
    (Close t).calls
        = Call.client_Close t.client :: t.consumers.map (fun sub => Call.pc_Close sub.Pc)
      ∧ (Close t).calls.countP Call.isClientClose = 1
      ∧ (Close t).calls.countP Call.isPcClose = t.consumers.length
      ∧ (∀ p : Option webrtc.PeerConnection,
          (Close t).calls.count (Call.pc_Close p)
            = t.consumers.countP (fun sub => decide (sub.Pc = p)))
      ∧ (Close t).panicked = false
      ∧ (Close t).state = t := by
  obtain ⟨hcalls, hpanic⟩ := Close_of_client_and_sessions t hclient hpcs
  refine ⟨hcalls, ?_, ?_, ?_, hpanic, Close_state_eq t⟩
  · rw [hcalls, List.countP_cons, countP_isClientClose_map]
    simp [Call.isClientClose]
  · rw [hcalls, List.countP_cons, countP_isPcClose_map]
    simp [Call.isPcClose]
  · intro p
    rw [hcalls, List.count_cons, count_pc_Close_map]
    simp

/-- Witness of the amended C1 on `busyClient`, which has client 9 and three
consumers with media sessions 11, 12 and 13. -/
theorem Close_closes_channel_and_each_consumer_once_witness :
    (Close busyClient).calls
        = [Call.client_Close (some 9), Call.pc_Close (some 11), Call.pc_Close (some 12),
            Call.pc_Close (some 13)]
      ∧ (Close busyClient).calls.countP Call.isClientClose = 1
      ∧ (Close busyClient).calls.countP Call.isPcClose = 3
      ∧ (Close busyClient).panicked = false
      ∧ (Close busyClient).state = busyClient :=
  have h := Close_closes_channel_and_each_consumer_once busyClient (by decide) (by decide)
  ⟨h.1, h.2.1, h.2.2.1, h.2.2.2.2.1, h.2.2.2.2.2⟩

/-! ## UnSubscribe -/

/-- C2: when the consumer list splits as `pre ++ a :: post` with no entry of
`pre` carrying the descriptor's `Mid` and `a` carrying it, `UnSubscribe` issues
a `Close` call on the media session of `a` when that pointer is non-nil and no
other call (nothing for `pre`, nothing for `post` even when a later entry has
the same `Mid`), and it leaves the client, its consumer list included,
unchanged. -/
theorem UnSubscribe_closes_first_match_only (t : RoomClient) (info : biz.MediaInfo)
    (pre post : List Consumer) (a : Consumer)
    (hsplit : t.consumers = pre ++ a :: post)
    (hpre : ∀ x ∈ pre, x.Info.Mid ≠ info.Mid)
    (ha : a.Info.Mid = info.Mid) :
    (UnSubscribe t info).calls
        = (match a.Pc with
           | some pc => [Call.pc_Close (some pc)]
           | none => [])
      ∧ (UnSubscribe t info).state.consumers = pre ++ a :: post
      ∧ (UnSubscribe t info).state = t
      ∧ (UnSubscribe t info).panicked = false := by
  have hfind : UnSubscribe.find info t.consumers = some a := by
    rw [hsplit]; exact find_append_of_first info pre post a hpre ha
  unfold UnSubscribe
  rw [hfind]
  obtain ⟨apc, ainfo⟩ := a
  cases apc <;> simp [hsplit]

/-- C3: when no entry of the consumer list carries the descriptor's `Mid` (the
empty list included), `UnSubscribe` returns without panicking, issues no call
at all and leaves the client unchanged. -/
theorem UnSubscribe_unknown_is_noop (t : RoomClient) (info : biz.MediaInfo)
    (hno : ∀ x ∈ t.consumers, x.Info.Mid ≠ info.Mid) :
    UnSubscribe t info = { state := t, calls := [], panicked := false } := by
  unfold UnSubscribe
  rw [find_none_of_no_match info t.consumers hno]

/-- Witness of C2 on `busyClient`: the first entry with `Mid` m2 is closed, the
later entry with the same `Mid` is not. -/
theorem UnSubscribe_closes_first_match_only_witness :
    (UnSubscribe busyClient mediaM2).calls = [Call.pc_Close (some 12)]
      ∧ (UnSubscribe busyClient mediaM2).state.consumers
          = [{ Pc := some 11, Info := mediaM1 }] ++
              { Pc := some 12, Info := mediaM2 } :: [{ Pc := some 13, Info := mediaM2b }]
      ∧ (UnSubscribe busyClient mediaM2).state = busyClient
      ∧ (UnSubscribe busyClient mediaM2).panicked = false :=
  UnSubscribe_closes_first_match_only busyClient mediaM2
    [{ Pc := some 11, Info := mediaM1 }] [{ Pc := some 13, Info := mediaM2b }]
    { Pc := some 12, Info := mediaM2 } rfl (by decide) rfl

/-- Witness of C3 on `busyClient` with an unknown `Mid`. -/
theorem UnSubscribe_unknown_is_noop_witness :
    UnSubscribe busyClient { Mid := "m9", Rest := "" }
      = { state := busyClient, calls := [], panicked := false } :=
  UnSubscribe_unknown_is_noop busyClient { Mid := "m9", Rest := "" } (by decide)

/-! ## Subscribe and the consumer list -/

theorem Subscribe_state_of_returned (t : RoomClient) (info : biz.MediaInfo)
    (env : SubscribeEnv) (h : (Subscribe t info env).panicked = false) :
    (Subscribe t info env).state
      = if env.succeeds then
          { t with consumers := t.consumers ++ [{ Pc := env.pc, Info := info }] }
        else t := by
  unfold Subscribe SubscribeEnv.succeeds at *
  cases h0 : env.pc <;> cases h1 : env.CreateOffer <;>
    cases h2 : env.SetLocalDescription <;> cases hw : t.WsPeer <;>
    cases h3 : env.res.Err <;> cases h4 : env.Unmarshal env.res.Result <;>
    cases h5 : env.SetRemoteDescription <;> simp_all

theorem Subscribe_of_succeeds (t : RoomClient) (info : biz.MediaInfo)
    (env : SubscribeEnv) (hconn : t.WsPeer ≠ none) (h : env.succeeds = true) :
    (Subscribe t info env).panicked = false
      ∧ (Subscribe t info env).state
          = { t with consumers := t.consumers ++ [{ Pc := env.pc, Info := info }] } := by
  unfold Subscribe
  unfold SubscribeEnv.succeeds at h
  cases h0 : env.pc <;> cases h1 : env.CreateOffer <;>
    cases h2 : env.SetLocalDescription <;> cases hw : t.WsPeer <;>
    cases h3 : env.res.Err <;> cases h4 : env.Unmarshal env.res.Result <;>
    cases h5 : env.SetRemoteDescription <;> simp_all

theorem UnSubscribe_state_eq (t : RoomClient) (info : biz.MediaInfo) :
    (UnSubscribe t info).state = t ∧ (UnSubscribe t info).panicked = false := by
  unfold UnSubscribe
  cases UnSubscribe.find info t.consumers with
  | none => exact ⟨rfl, rfl⟩
  | some sub =>
    obtain ⟨pc, inf⟩ := sub
    cases pc <;> exact ⟨rfl, rfl⟩

theorem runOps_consumers_Info (ops : List Op) (t : RoomClient)
    (h : (runOps t ops).panicked = false) :
    (runOps t ops).state.consumers.map (fun c => c.Info)
      = t.consumers.map (fun c => c.Info) ++ subscribed ops := by
  induction ops generalizing t with
  | nil => simp [runOps, subscribed]
  | cons op ops ih =>
    cases op with
    | Subscribe info env =>
      by_cases hp : (Subscribe t info env).panicked = true
      · simp [runOps, Op.run, hp] at h
      · have hp0 : (Subscribe t info env).panicked = false := by simpa using hp
        have hst := Subscribe_state_of_returned t info env hp0
        have hrun : runOps t (Op.Subscribe info env :: ops)
            = { state := (runOps (Subscribe t info env).state ops).state
                calls := (Subscribe t info env).calls
                  ++ (runOps (Subscribe t info env).state ops).calls
                panicked := (runOps (Subscribe t info env).state ops).panicked } := by
          simp [runOps, Op.run, hp0]
        rw [hrun] at h ⊢
        have ih1 := ih (Subscribe t info env).state h
        show List.map (fun c => c.Info) (runOps (Subscribe t info env).state ops).state.consumers
          = _
        rw [ih1, hst]
        by_cases hs : env.succeeds = true
        · simp [hs, subscribed]
        · simp [hs, subscribed]
    | UnSubscribe info =>
      have hu := UnSubscribe_state_eq t info
      have hrun : runOps t (Op.UnSubscribe info :: ops)
          = { state := (runOps t ops).state
              calls := (UnSubscribe t info).calls ++ (runOps t ops).calls
              panicked := (runOps t ops).panicked } := by
        simp [runOps, Op.run, hu.1, hu.2]
      rw [hrun] at h ⊢
      simpa [subscribed] using ih t h
    | Close =>
      by_cases hp : (Close t).panicked = true
      · simp [runOps, Op.run, hp] at h
      · have hp0 : (Close t).panicked = false := by simpa using hp
        have hrun : runOps t (Op.Close :: ops)
            = { state := (runOps t ops).state
                calls := (Close t).calls ++ (runOps t ops).calls
                panicked := (runOps t ops).panicked } := by
          simp [runOps, Op.run, hp0, Close_state_eq]
        rw [hrun] at h ⊢
        simpa [subscribed] using ih t h

theorem runOps_all_Subscribe (l : List (biz.MediaInfo × SubscribeEnv)) (t : RoomClient)
    (hconn : t.WsPeer ≠ none) (hok : ∀ p ∈ l, p.2.succeeds = true) :
    (runOps t (l.map (fun p => Op.Subscribe p.1 p.2))).panicked = false
      ∧ (runOps t (l.map (fun p => Op.Subscribe p.1 p.2))).state.consumers
          = t.consumers ++ l.map (fun p => ({ Pc := p.2.pc, Info := p.1 } : Consumer)) := by
  induction l generalizing t with
  | nil => simp [runOps]
  | cons p l ih =>
    have hp : p.2.succeeds = true := hok p (List.mem_cons_self p l)
    have hl : ∀ q ∈ l, q.2.succeeds = true := fun q hq => hok q (List.mem_cons_of_mem p hq)
    obtain ⟨h1, h2⟩ := Subscribe_of_succeeds t p.1 p.2 hconn hp
    have hconn1 : (Subscribe t p.1 p.2).state.WsPeer ≠ none := by rw [h2]; exact hconn
    obtain ⟨ih1, ih2⟩ := ih (Subscribe t p.1 p.2).state hconn1 hl
    have hrun : runOps t ((p :: l).map (fun p => Op.Subscribe p.1 p.2))
        = { state := (runOps (Subscribe t p.1 p.2).state
                (l.map (fun p => Op.Subscribe p.1 p.2))).state
            calls := (Subscribe t p.1 p.2).calls
              ++ (runOps (Subscribe t p.1 p.2).state
                (l.map (fun p => Op.Subscribe p.1 p.2))).calls
            panicked := (runOps (Subscribe t p.1 p.2).state
                (l.map (fun p => Op.Subscribe p.1 p.2))).panicked } := by
      simp [runOps, Op.run, h1]
    rw [hrun]
    refine ⟨ih1, ?_⟩
    show (runOps (Subscribe t p.1 p.2).state
      (l.map (fun p => Op.Subscribe p.1 p.2))).state.consumers = _
    rw [ih2, h2]
    simp

/-- C4, refuted as stated: `connectedClient` is the client built by `NewClient`
after `Init` and `handleWebSocketOpen`, with an empty consumer list; two
`Subscribe` operations for descriptors with the same `Mid` both complete on it,
and the consumer list then holds two entries with that `Mid`. -/
theorem Subscribe_same_Mid_twice_duplicates :
    NewClient "alice" "r1" "wss://sfu/ws" sampleNewClientEnv = .ok aliceClient
      ∧ (handleWebSocketOpen (Init aliceClient (some 9)).state (some 3) (some 5)).state
          = connectedClient
      ∧ (runOps connectedClient
          [Op.Subscribe mediaM2 (okSubscribe 12), Op.Subscribe mediaM2 (okSubscribe 13)]).panicked
          = false
      ∧ (runOps connectedClient
          [Op.Subscribe mediaM2 (okSubscribe 12), Op.Subscribe mediaM2 (okSubscribe 13)]).state.consumers
          = [{ Pc := some 12, Info := mediaM2 }, { Pc := some 13, Info := mediaM2 }]
      ∧ ¬ ((runOps connectedClient
          [Op.Subscribe mediaM2 (okSubscribe 12),
            Op.Subscribe mediaM2 (okSubscribe 13)]).state.consumers.map
          (fun c => c.Info.Mid)).Nodup := by
  refine ⟨rfl, rfl, rfl, rfl, ?_⟩
  decide

/-- C4, amended: in every state reached from a new session (empty consumer
list, connected or not) by a sequence of `Subscribe`, `UnSubscribe` and `Close`
operations none of which panicked, the descriptors in the consumer list are
those of the `Subscribe` operations that completed successfully, in that order
(no lookup happens before an entry is added); so no two entries have the same
`Info.Mid` exactly when no two successfully completed `Subscribe` operations
carried the same `Mid`. -/
theorem consumers_are_completed_Subscribes (t0 : RoomClient) (ops : List Op)
    (hnew : t0.consumers = [])
    (hrun : (runOps t0 ops).panicked = false) :
    (runOps t0 ops).state.consumers.map (fun c => c.Info) = subscribed ops
      ∧ (((runOps t0 ops).state.consumers.map (fun c => c.Info.Mid)).Nodup
          ↔ ((subscribed ops).map (fun d => d.Mid)).Nodup) := by
  have h := runOps_consumers_Info ops t0 hrun
  rw [hnew] at h
  simp only [List.map_nil, List.nil_append] at h
  refine ⟨h, ?_⟩
  rw [← h, List.map_map]
  rfl

/-- Witness of the amended C4 on `connectedClient`: one rejected and two
successful `Subscribe` operations with distinct `Mid`s, an `UnSubscribe` and a
`Close`; the list then holds m1 and m2. -/
theorem consumers_are_completed_Subscribes_witness :
    (runOps connectedClient
        [Op.Subscribe mediaM1 (okSubscribe 11), Op.Subscribe mediaM2b rejectedSubscribe,
          Op.UnSubscribe mediaM1, Op.Subscribe mediaM2 (okSubscribe 12),
          Op.Close]).panicked = false
      ∧ subscribed
          [Op.Subscribe mediaM1 (okSubscribe 11), Op.Subscribe mediaM2b rejectedSubscribe,
            Op.UnSubscribe mediaM1, Op.Subscribe mediaM2 (okSubscribe 12), Op.Close]
          = [mediaM1, mediaM2]
      ∧ (runOps connectedClient
        [Op.Subscribe mediaM1 (okSubscribe 11), Op.Subscribe mediaM2b rejectedSubscribe,
          Op.UnSubscribe mediaM1, Op.Subscribe mediaM2 (okSubscribe 12),
          Op.Close]).state.consumers.map (fun c => c.Info)
        = subscribed
            [Op.Subscribe mediaM1 (okSubscribe 11), Op.Subscribe mediaM2b rejectedSubscribe,
              Op.UnSubscribe mediaM1, Op.Subscribe mediaM2 (okSubscribe 12), Op.Close]
      ∧ (((runOps connectedClient
            [Op.Subscribe mediaM1 (okSubscribe 11), Op.Subscribe mediaM2b rejectedSubscribe,
              Op.UnSubscribe mediaM1, Op.Subscribe mediaM2 (okSubscribe 12),
              Op.Close]).state.consumers.map (fun c => c.Info.Mid)).Nodup
          ↔ ((subscribed
            [Op.Subscribe mediaM1 (okSubscribe 11), Op.Subscribe mediaM2b rejectedSubscribe,
              Op.UnSubscribe mediaM1, Op.Subscribe mediaM2 (okSubscribe 12),
              Op.Close]).map (fun d => d.Mid)).Nodup) :=
  ⟨rfl, rfl, consumers_are_completed_Subscribes connectedClient _ rfl rfl⟩

/-- C5: starting from a connected new session (empty consumer list, `WsPeer`
set) and running `Subscribe` to successful completion for descriptors `d1..dn`
with pairwise distinct `Mid`s, in that order, no run panics and the consumer
list has exactly `n` entries, the `i`-th of which carries `di` (and the media
session created for it), with no `Mid` occurring twice. -/
theorem Subscribe_sequence_consumers (t0 : RoomClient)
    (l : List (biz.MediaInfo × SubscribeEnv))
    (hnew : t0.consumers = [])
    (hconn : t0.WsPeer ≠ none)
    (hdistinct : (l.map (fun p => p.1.Mid)).Nodup)
    (hok : ∀ p ∈ l, p.2.succeeds = true) :
    (runOps t0 (l.map (fun p => Op.Subscribe p.1 p.2))).panicked = false
      ∧ (runOps t0 (l.map (fun p => Op.Subscribe p.1 p.2))).state.consumers
          = l.map (fun p => ({ Pc := p.2.pc, Info := p.1 } : Consumer))
      ∧ (runOps t0 (l.map (fun p => Op.Subscribe p.1 p.2))).state.consumers.length = l.length
      ∧ (runOps t0 (l.map (fun p => Op.Subscribe p.1 p.2))).state.consumers.map
          (fun c => c.Info) = l.map (fun p => p.1)
      ∧ ((runOps t0 (l.map (fun p => Op.Subscribe p.1 p.2))).state.consumers.map
          (fun c => c.Info.Mid)).Nodup := by
  obtain ⟨h1, h2⟩ := runOps_all_Subscribe l t0 hconn hok
  rw [hnew, List.nil_append] at h2
  refine ⟨h1, h2, ?_, ?_, ?_⟩
  · rw [h2, List.length_map]
  · rw [h2, List.map_map]; rfl
  · rw [h2, List.map_map]; exact hdistinct

/-- Witness of C5 on `connectedClient` with the descriptors m1 and m2. -/
theorem Subscribe_sequence_consumers_witness :
    (runOps connectedClient
        ([(mediaM1, okSubscribe 11), (mediaM2, okSubscribe 12)].map
          (fun p => Op.Subscribe p.1 p.2))).panicked = false
      ∧ (runOps connectedClient
        ([(mediaM1, okSubscribe 11), (mediaM2, okSubscribe 12)].map
          (fun p => Op.Subscribe p.1 p.2))).state.consumers
          = [{ Pc := some 11, Info := mediaM1 }, { Pc := some 12, Info := mediaM2 }] :=
  have h := Subscribe_sequence_consumers connectedClient
    [(mediaM1, okSubscribe 11), (mediaM2, okSubscribe 12)] rfl (by decide) (by decide)
    (by decide)
  ⟨h.1, h.2.1⟩

/-! ## Publish -/

theorem addTracks_no_panic (t : RoomClient) (env : PublishEnv)
    (haudio : t.AudioTrack ≠ none → env.addAudioTrack = none)
    (hvideo : t.VideoTrack ≠ none → env.addVideoTrack = none) :
    (Publish.addTracks t env).2 = false := by
  unfold Publish.addTracks
  cases ha : t.AudioTrack <;> cases hv : t.VideoTrack <;> simp_all

/-- C6: when the steps before the publish request succeed (tracks attached,
offer created and applied), the request returns a success response and its
payload decodes to `msg`, then after `Publish` the embedded `MediaInfo` of the
client equals `msg.MediaInfo`, whatever it was before and whether or not
applying the answer then succeeds; every other field is as before, and
`Publish` panics only if applying the answer fails. -/
theorem Publish_sets_MediaInfo (t : RoomClient) (env : PublishEnv)
    (offer : webrtc.SessionDescription) (msg : biz.PublishResponseMsg)
    (haudio : t.AudioTrack ≠ none → env.addAudioTrack = none)
    (hvideo : t.VideoTrack ≠ none → env.addVideoTrack = none)
    (hoffer : env.CreateOffer = .ok offer)
    (hlocal : env.SetLocalDescription = none)
    (hres : env.res.Err = none)
    (hdecode : env.Unmarshal env.res.Result = .ok msg) :
    (Publish t env).state.MediaInfo = msg.MediaInfo
      ∧ (Publish t env).state = { t with MediaInfo := msg.MediaInfo }
      ∧ (Publish t env).panicked = env.SetRemoteDescription.isSome := by
  have htr := addTracks_no_panic t env haudio hvideo
  unfold Publish
  simp only [htr, hoffer, hlocal, hres, hdecode]
  cases env.SetRemoteDescription <;> simp

/-- Witness of C6: `busyClient`, whose `MediaInfo` has `Mid` m0, publishes and
the server answers with the descriptor m1. -/
theorem Publish_sets_MediaInfo_witness :
    (Publish busyClient okPublish).state.MediaInfo = mediaM1
      ∧ (Publish busyClient okPublish).state = { busyClient with MediaInfo := mediaM1 }
      ∧ (Publish busyClient okPublish).panicked = false :=
  Publish_sets_MediaInfo busyClient okPublish "offer" { MediaInfo := mediaM1, Jsep := "answer" }
    (fun _ => rfl) (fun _ => rfl) rfl rfl rfl rfl

/-! ## Error responses -/

/-- C7: when the subscribe request returns an error response, or a success
response whose payload fails to decode, `Subscribe` leaves the consumer list as
it was (nothing appended, nothing removed or altered), indeed the whole client;
and it issues no `SetRemoteDescription` on the session it created. -/
theorem Subscribe_rejected_keeps_consumers (t : RoomClient) (info : biz.MediaInfo)
    (env : SubscribeEnv)
    (hrej : env.res.Err ≠ none ∨ ∃ err, env.Unmarshal env.res.Result = .error err) :
    (Subscribe t info env).state.consumers = t.consumers
      ∧ (Subscribe t info env).state = t
      ∧ ∀ sd, Call.SetRemoteDescription env.pc sd ∉ (Subscribe t info env).calls := by
  unfold Subscribe
  rcases hrej with hrej | ⟨err, hrej⟩
  · cases h0 : env.pc <;> cases h1 : env.CreateOffer <;>
      cases h2 : env.SetLocalDescription <;> cases hw : t.WsPeer <;>
      cases h3 : env.res.Err <;> simp_all
  · cases h0 : env.pc <;> cases h1 : env.CreateOffer <;>
      cases h2 : env.SetLocalDescription <;> cases hw : t.WsPeer <;>
      cases h3 : env.res.Err <;> simp_all

/-- Witness of C7: a rejected `Subscribe` on `busyClient`. -/
theorem Subscribe_rejected_keeps_consumers_witness :
    (Subscribe busyClient mediaM2 rejectedSubscribe).state.consumers = busyClient.consumers
      ∧ (Subscribe busyClient mediaM2 rejectedSubscribe).state = busyClient
      ∧ ∀ sd, Call.SetRemoteDescription rejectedSubscribe.pc sd
          ∉ (Subscribe busyClient mediaM2 rejectedSubscribe).calls :=
  Subscribe_rejected_keeps_consumers busyClient mediaM2 rejectedSubscribe
    (Or.inl (by decide))

/-- C8: when the join request returns an error response, `Join` returns with
the client unchanged (published `MediaInfo`, room info and consumer list
included); the only call it issued is the join request itself, so no `Close`
call reached the signaling client or a media session and no track was
attached. -/
theorem Join_rejected_keeps_state (t : RoomClient) (res : peer.Response)
    (herr : res.Err ≠ none) :
    (Join t res).state = t
      ∧ (Join t res).calls
          = [Call.Request t.WsPeer proto.Method.ClientJoin
              (Payload.join { RoomInfo := t.room, Info := { Name := t.name } })]
      ∧ (Join t res).calls.countP Call.isClientClose = 0
      ∧ (Join t res).calls.countP Call.isPcClose = 0
      ∧ (Join t res).calls.countP Call.isAddTrack = 0
      ∧ (Join t res).panicked = false := by
  unfold Join
  cases h : res.Err with
  | none => exact absurd h herr
  | some e => simp [Call.isClientClose, Call.isPcClose, Call.isAddTrack]

/-- Witness of C8: a rejected `Join` on `busyClient`. -/
theorem Join_rejected_keeps_state_witness :
    (Join busyClient rejection).state = busyClient
      ∧ (Join busyClient rejection).calls
          = [Call.Request busyClient.WsPeer proto.Method.ClientJoin
              (Payload.join { RoomInfo := busyClient.room, Info := { Name := busyClient.name } })]
      ∧ (Join busyClient rejection).calls.countP Call.isClientClose = 0
      ∧ (Join busyClient rejection).calls.countP Call.isPcClose = 0
      ∧ (Join busyClient rejection).calls.countP Call.isAddTrack = 0
      ∧ (Join busyClient rejection).panicked = false :=
  Join_rejected_keeps_state busyClient rejection (by decide)

/-- C10, refuted as stated: with the non-empty name alice supplied and the
identifier generation succeeding, the participant identifier of the new client
is the generated one, not the supplied name. -/
theorem NewClient_overrides_supplied_name :
    NewClient "alice" "r1" "wss://sfu/ws" sampleNewClientEnv = .ok aliceClient
      ∧ aliceClient.room.Uid = "3b241101-e2bb-4255-8caf-4136c566a962"
      ∧ aliceClient.room.Uid ≠ "alice"
      ∧ (Init aliceClient (some 9)).calls
          = [Call.NewClient "wss://sfu/ws?peer=3b241101-e2bb-4255-8caf-4136c566a962"] := by
  refine ⟨rfl, rfl, by decide, by decide⟩

/-- C10, amended: `NewClient` asks for a random identifier whatever name is
supplied.  For every name, room and path, when the generation succeeds the
participant identifier `room.Uid` of the new client is the generated one, and
when the generation fails it is the supplied name (empty or not); `Init` then
opens the signaling channel at `path ++ "?peer=" ++ Uid`. -/
theorem NewClient_Uid_generated_unless_failure (name room path : String)
    (env : NewClientEnv) (t : RoomClient)
    (hnew : NewClient name room path env = .ok t) :
    t.room.Uid
        = (match env.NewRandom with
           | .ok uuid => uuid
           | .error _ => name)
      ∧ t.name = name
      ∧ ∀ ret, (Init t ret).calls = [Call.NewClient (path ++ "?peer=" ++ t.room.Uid)] := by
  unfold NewClient at hnew
  cases hpc : newPeerCon env.NewPeerConnection with
  | error e => simp [hpc] at hnew
  | ok pc =>
    simp only [hpc] at hnew
    injection hnew with hnew
    subst hnew
    cases env.NewRandom <;> simp [Init]

/-- Witness of the amended C10: the client built for the name alice under
`sampleNewClientEnv`, whose generation succeeds. -/
theorem NewClient_Uid_generated_unless_failure_witness :
    aliceClient.room.Uid = "3b241101-e2bb-4255-8caf-4136c566a962"
      ∧ aliceClient.name = "alice"
      ∧ ∀ ret, (Init aliceClient ret).calls
          = [Call.NewClient ("wss://sfu/ws" ++ "?peer=" ++ aliceClient.room.Uid)] :=
  NewClient_Uid_generated_unless_failure "alice" "r1" "wss://sfu/ws" sampleNewClientEnv
    aliceClient rfl

end Ion
